import Mathlib

/-!
Verification development for the blog-post generation core of this
repository: the Gemini response parser (`parseGeminiJsonResponse`), the
image generator (`generateImage`), the content generator
(`generateBlogPostContent`) and the UI coordinator (`handleGeneratePost`
in App.tsx).  The host-language primitives the code relies on
(`String.prototype.trim`, `String.prototype.includes`, `JSON.parse`, the
fence regular expression and JavaScript truthiness) are embedded
explicitly below; the network calls and the ambient clock are modelled
as parameters holding their outcome.
-/

/-! ## JavaScript string primitives -/

/-- The character set treated as whitespace by JavaScript `String.prototype.trim`
and by the regex class `\s`. -/
def isJsWhite (c : Char) : Bool :=
  let n := c.toNat
  (9 ≤ n && n ≤ 13) || n = 32 || n = 160 || n = 0x1680 ||
  (0x2000 ≤ n && n ≤ 0x200a) || n = 0x2028 || n = 0x2029 ||
  n = 0x202f || n = 0x205f || n = 0x3000 || n = 0xfeff

/-- List-level `trim`: drop JavaScript whitespace from both ends. -/
def trimL (cs : List Char) : List Char :=
  ((cs.dropWhile isJsWhite).reverse.dropWhile isJsWhite).reverse

/-- JavaScript `String.prototype.trim`. -/
def jsTrim (s : String) : String := String.mk (trimL s.data)

/-- Does the list start with the given pattern?  (Used by the substring test.) -/
def listStartsWith : List Char → List Char → Bool
  | _, [] => true
  | [], _ :: _ => false
  | a :: as, b :: bs => a = b && listStartsWith as bs

/-- Does `l` contain `pat` as a contiguous run?  (Used by the substring test.) -/
def listHasRun : List Char → List Char → Bool
  | [], pat => pat.isEmpty
  | l@(_ :: t), pat => listStartsWith l pat || listHasRun t pat

/-- JavaScript `String.prototype.includes` (substring containment). -/
def jsIncludes (s pat : String) : Bool := listHasRun s.data pat.data

/-! ## JSON values and `JSON.parse`

`JSON.parse` is the host primitive used at line 18 of the service file.
The embedding below follows the JSON grammar that `JSON.parse` accepts:
the four JSON whitespace characters, strict number syntax (no leading
zeros, mandatory digits around `.` and after an exponent marker),
string escapes, and last-occurrence-wins duplicate object keys (property
assignment order).  Numbers keep their lexeme: only their `typeof` and
truthiness are ever consulted by the program. -/

inductive Json where
  | null : Json
  | bool (b : Bool) : Json
  | num (lexeme : String) : Json
  | str (s : String) : Json
  | arr (elems : List Json) : Json
  | obj (fields : List (String × Json)) : Json

/-- JSON whitespace accepted by `JSON.parse` (strict: space, tab, LF, CR). -/
def isJsonWs (c : Char) : Bool :=
  let n := c.toNat
  n = 32 || n = 9 || n = 10 || n = 13

def skipWs (cs : List Char) : List Char := cs.dropWhile isJsonWs

def hexVal (c : Char) : Option Nat :=
  if '0' ≤ c && c ≤ '9' then some (c.toNat - 48)
  else if 'a' ≤ c && c ≤ 'f' then some (c.toNat - 97 + 10)
  else if 'A' ≤ c && c ≤ 'F' then some (c.toNat - 65 + 10)
  else none

/-- Body of a JSON string literal, positioned after the opening quote.
Returns the decoded string and the remaining input.  Lone surrogate
escapes, which Lean `Char` cannot carry, fall back on `Char.ofNat`
default; no claim exercises them. -/
def parseStringBody : Nat → List Char → List Char → Option (String × List Char)
  | 0, _, _ => none
  | _ + 1, [], _ => none
  | f + 1, c :: rest, acc =>
    if c = '"' then some (String.mk acc.reverse, rest)
    else if c = '\\' then
      match rest with
      | [] => none
      | e :: rest2 =>
        if e = '"' then parseStringBody f rest2 ('"' :: acc)
        else if e = '\\' then parseStringBody f rest2 ('\\' :: acc)
        else if e = '/' then parseStringBody f rest2 ('/' :: acc)
        else if e = 'b' then parseStringBody f rest2 ('\x08' :: acc)
        else if e = 'f' then parseStringBody f rest2 ('\x0c' :: acc)
        else if e = 'n' then parseStringBody f rest2 ('\n' :: acc)
        else if e = 'r' then parseStringBody f rest2 ('\x0d' :: acc)
        else if e = 't' then parseStringBody f rest2 ('\t' :: acc)
        else if e = 'u' then
          match rest2 with
          | h1 :: h2 :: h3 :: h4 :: rest3 =>
            match hexVal h1, hexVal h2, hexVal h3, hexVal h4 with
            | some a, some b, some c2, some d =>
              parseStringBody f rest3 (Char.ofNat (((a * 16 + b) * 16 + c2) * 16 + d) :: acc)
            | _, _, _, _ => none
          | _ => none
        else none
    else if c.toNat < 32 then none
    else parseStringBody f rest (c :: acc)

def digitSpan (cs : List Char) : List Char × List Char :=
  (cs.takeWhile Char.isDigit, cs.dropWhile Char.isDigit)

/-- Fraction part of a JSON number (`.` followed by one or more digits), if present. -/
def numFrac (lex : List Char) (cs : List Char) : Option (List Char × List Char) :=
  match cs with
  | '.' :: t =>
    match digitSpan t with
    | ([], _) => none
    | (ds, t2) => some (lex ++ '.' :: ds, t2)
  | _ => some (lex, cs)

/-- Exponent part of a JSON number, if present. -/
def numExp (lex : List Char) (cs : List Char) : Option (List Char × List Char) :=
  match cs with
  | e :: t =>
    if e = 'e' || e = 'E' then
      let st := match t with
        | '+' :: u => (['+'], u)
        | '-' :: u => (['-'], u)
        | _ => ([], t)
      match digitSpan st.2 with
      | ([], _) => none
      | (ds, t2) => some (lex ++ e :: (st.1 ++ ds), t2)
    else some (lex, cs)
  | [] => some (lex, cs)

/-- A JSON number: optional sign, strict integer part, optional fraction
and exponent.  The lexeme is retained. -/
def parseNumber (cs : List Char) : Option (Json × List Char) :=
  let sc := match cs with
    | '-' :: t => ((['-'] : List Char), t)
    | _ => ([], cs)
  match sc.2 with
  | c :: t =>
    if c = '0' then
      match numFrac (sc.1 ++ ['0']) t with
      | none => none
      | some (lex2, t2) =>
        match numExp lex2 t2 with
        | none => none
        | some (lex3, t3) => some (Json.num (String.mk lex3), t3)
    else if c.isDigit then
      match digitSpan t with
      | (ds, t1) =>
        match numFrac (sc.1 ++ c :: ds) t1 with
        | none => none
        | some (lex2, t2) =>
          match numExp lex2 t2 with
          | none => none
          | some (lex3, t3) => some (Json.num (String.mk lex3), t3)
    else none
  | [] => none

/-- Object member loop, abstracted over the value parser so that the
whole parser is structurally recursive on explicit fuel. -/
def parseMembersGo (pv : List Char → Option (Json × List Char)) :
    Nat → List Char → List (String × Json) → Option (Json × List Char)
  | 0, _, _ => none
  | f + 1, cs, acc =>
    match skipWs cs with
    | '"' :: rest =>
      match parseStringBody (rest.length + 1) rest [] with
      | none => none
      | some (key, rest2) =>
        match skipWs rest2 with
        | ':' :: rest3 =>
          match pv rest3 with
          | none => none
          | some (v, rest4) =>
            match skipWs rest4 with
            | ',' :: rest5 => parseMembersGo pv f rest5 ((key, v) :: acc)
            | '\x7d' :: rest5 => some (Json.obj ((key, v) :: acc).reverse, rest5)
            | _ => none
        | _ => none
    | _ => none

/-- Array element loop, abstracted over the value parser. -/
def parseElemsGo (pv : List Char → Option (Json × List Char)) :
    Nat → List Char → List Json → Option (Json × List Char)
  | 0, _, _ => none
  | f + 1, cs, acc =>
    match pv cs with
    | none => none
    | some (v, rest) =>
      match skipWs rest with
      | ',' :: rest2 => parseElemsGo pv f rest2 (v :: acc)
      | ']' :: rest2 => some (Json.arr (v :: acc).reverse, rest2)
      | _ => none

/-- A JSON value.  Fuel bounds the nesting depth; the driver passes
input length plus two, which structural consumption makes sufficient. -/
def parseValue : Nat → List Char → Option (Json × List Char)
  | 0, _ => none
  | f + 1, cs =>
    match skipWs cs with
    | [] => none
    | c :: rest =>
      if c = '\x7b' then
        match skipWs rest with
        | '\x7d' :: r2 => some (Json.obj [], r2)
        | _ => parseMembersGo (parseValue f) (rest.length + 1) rest []
      else if c = '[' then
        match skipWs rest with
        | ']' :: r2 => some (Json.arr [], r2)
        | _ => parseElemsGo (parseValue f) (rest.length + 1) rest []
      else if c = '"' then
        match parseStringBody (rest.length + 1) rest [] with
        | none => none
        | some (s, r2) => some (Json.str s, r2)
      else if c = 't' then
        match rest with
        | 'r' :: 'u' :: 'e' :: r2 => some (Json.bool true, r2)
        | _ => none
      else if c = 'f' then
        match rest with
        | 'a' :: 'l' :: 's' :: 'e' :: r2 => some (Json.bool false, r2)
        | _ => none
      else if c = 'n' then
        match rest with
        | 'u' :: 'l' :: 'l' :: r2 => some (Json.null, r2)
        | _ => none
      else if c = '-' || c.isDigit then parseNumber (c :: rest)
      else none

/-- The whole of `JSON.parse` on a character list: one value, then only trailing
whitespace; anything else is a `SyntaxError` (`none`). -/
def jsonParseL (cs : List Char) : Option Json :=
  match parseValue (cs.length + 2) cs with
  | none => none
  | some (v, rest) => if (skipWs rest).isEmpty then some v else none

/-- Property lookup on a parsed value, as JavaScript member access:
objects built by `JSON.parse` assign fields in order, so a duplicated
key holds its last value; access on any non-object JSON result yields
`undefined` (`none`).  (Access on `null` throws and is handled at the
use site.) -/
def lookupLast (k : String) : List (String × Json) → Option Json
  | [] => none
  | (k2, v) :: rest =>
    match lookupLast k rest with
    | some r => some r
    | none => if k2 = k then some v else none

def jsGetProp : Json → String → Option Json
  | Json.obj fs, k => lookupLast k fs
  | _, _ => none

/-- The check `typeof x === "string"` for an optional property value. -/
def isStrOpt : Option Json → Bool
  | some (Json.str _) => true
  | _ => false

/-- Is every digit of the mantissa `0`?  (The numeric value of a JSON
number literal is `±0` exactly in this case.) -/
def numLexIsZero (lex : String) : Bool :=
  ((lex.data.takeWhile (fun c => c ≠ 'e' && c ≠ 'E')).filter Char.isDigit).all (· = '0')

/-- JavaScript truthiness of a parsed JSON value. -/
def jsTruthy : Json → Bool
  | Json.null => false
  | Json.bool b => b
  | Json.str s => !s.isEmpty
  | Json.num lex => !numLexIsZero lex
  | Json.arr _ => true
  | Json.obj _ => true

def jsTruthyOpt : Option Json → Bool
  | none => false
  | some v => jsTruthy v

/-! ## The code fence regular expression

Line 11 of the service file matches the trimmed payload against
`/^` ++ "```" ++ `(?:json)?\s*\n?(.*?)\n?\s*` ++ "```" ++ `$/s` and, when the first
capture group is non-empty, replaces the payload with the trimmed group.
With the `s` flag the group can span lines, both ends are anchored, the
leading `(?:json)?` and greedy `\s*\n?` consume the literal tag and all
whitespace after the opening fence, and the lazy group together with the
anchored tail hands the group everything up to the final fence minus the
whitespace run before it.  The function below computes exactly that
match result. -/

/-- Strip a leading triple backtick, if present (both regex anchors use it). -/
def fenceRest : List Char → Option (List Char)
  | '\x60' :: '\x60' :: '\x60' :: r => some r
  | _ => none

/-- Does the list start with the fence marker? -/
def startsFence (l : List Char) : Bool := (fenceRest l).isSome

/-- Consume the optional literal `json` tag right after the opening fence. -/
def stripJsonTag : List Char → List Char
  | 'j' :: 's' :: 'o' :: 'n' :: t => t
  | r => r

/-- First capture group of the fence regex on an already-trimmed input,
or `none` when the regex does not match. -/
def fenceGroupL (cs : List Char) : Option (List Char) :=
  match fenceRest cs with
  | none => none
  | some r1 =>
    let r3 := (stripJsonTag r1).dropWhile isJsWhite
    match fenceRest r3.reverse with
    | none => none
    | some coreRev => some ((coreRev.dropWhile isJsWhite).reverse)

/-- The `jsonStr` value computed by lines 10-15 of the service file: trim, and
strip the fence only when the regex matched with a truthy (non-empty)
first group, trimming the group. -/
def geminiJsonStrL (cs : List Char) : List Char :=
  match fenceGroupL (trimL cs) with
  | some m => if m.isEmpty then trimL cs else trimL m
  | none => trimL cs

/-! ## Error model

Errors thrown inside `parseGeminiJsonResponse`'s `try` block (lines
17-25): the `SyntaxError` from `JSON.parse`, the `TypeError` from
accessing a property of `null`, and the structural `Error` constructed
at line 24 — all are caught by the `catch` at line 26, which rethrows
the fixed parse-failure `Error`. -/

inductive ThrownError where
  | syntaxError : ThrownError
  | typeError : ThrownError
  | invalidStructure : ThrownError
deriving DecidableEq

/-- The message of the structural error constructed at line 24. -/
def invalidStructureMessage : String :=
  "AI response has an invalid data structure for blog content."

/-- Errors thrown by the service functions, each an `Error` instance
with the message given by `GenError.message`. -/
inductive GenError where
  | jsonParseFailure : GenError
  | invalidApiKeyImage : GenError
  | invalidApiKey : GenError
  | geminiApiError (inner : String) : GenError
  | unknownContent : GenError
deriving DecidableEq

def GenError.message : GenError → String
  | .jsonParseFailure =>
    "Failed to parse AI response for blog content. The response was not valid JSON."
  | .invalidApiKeyImage =>
    "Invalid API Key for image generation. Please ensure your Gemini API key is correctly configured."
  | .invalidApiKey =>
    "Invalid API Key. Please ensure your Gemini API key is correctly configured."
  | .geminiApiError inner => "Gemini API error: " ++ inner
  | .unknownContent => "An unknown error occurred while generating blog post content."

/-! ## parseGeminiJsonResponse -/

/-- The validated shape the parser returns (`BlogPostContent` in
types.ts): the cast at line 21 returns the parsed object, whose `title`
and `content` were just checked to be strings and whose optional
`imagePrompt` passes through unvalidated. -/
structure BlogPostContent where
  title : String
  content : String
  imagePrompt : Option Json

/-- Lines 19-25: require string-typed `title` and `content` properties
of the parsed value; otherwise throw the structural error of line 24. -/
def checkFields (parsed : Json) : Except ThrownError BlogPostContent :=
  match jsGetProp parsed "title", jsGetProp parsed "content" with
  | some (Json.str t), some (Json.str c) =>
    Except.ok ⟨t, c, jsGetProp parsed "imagePrompt"⟩
  | _, _ => Except.error ThrownError.invalidStructure

/-- A `null` parse result throws `TypeError` at the property access of
line 19; any other value reaches the field check. -/
def validateParsed : Json → Except ThrownError BlogPostContent
  | Json.null => Except.error ThrownError.typeError
  | parsed => checkFields parsed

/-- The `try` block of lines 17-25: parse, then validate. -/
def parseTryBlockL (jsonStr : List Char) : Except ThrownError BlogPostContent :=
  match jsonParseL jsonStr with
  | none => Except.error ThrownError.syntaxError
  | some parsed => validateParsed parsed

/-- The `catch` of lines 26-29 rethrows the fixed parse-failure error
for every error raised in the `try` block, the structural error of
line 24 included. -/
def parseCore (jsonStr : List Char) : Except GenError BlogPostContent :=
  match parseTryBlockL jsonStr with
  | Except.ok v => Except.ok v
  | Except.error _ => Except.error GenError.jsonParseFailure

/-- The function `parseGeminiJsonResponse` (service file lines 9-30). -/
def parseGeminiJsonResponse (responseText : String) : Except GenError BlogPostContent :=
  parseCore (geminiJsonStrL responseText.data)

/-! ## generateImage -/

/-- The optional chain `image?.imageBytes` of one entry of `generatedImages`. -/
structure ImagePart where
  imageBytes : Option String

structure GeneratedImage where
  image : Option ImagePart

/-- Outcome of the upstream `ai.models.generateImages` call: either a
response object whose `generatedImages` field may be absent, or a
thrown value (with whether it is an `Error` instance, and its message). -/
inductive UpstreamImage where
  | response (generatedImages : Option (List GeneratedImage)) : UpstreamImage
  | thrown (isError : Bool) (msg : String) : UpstreamImage

/-- The truthiness chain of line 43:
`response.generatedImages && response.generatedImages.length > 0 &&
response.generatedImages[0].image?.imageBytes`, yielding the bytes when
it holds. -/
def extractImageBytes : Option (List GeneratedImage) → Option String
  | some (g :: _) =>
    match g.image with
    | some part =>
      match part.imageBytes with
      | some b => if b.isEmpty then none else some b
      | none => none
    | none => none
  | _ => none

/-- The function `generateImage` (service file lines 32-58).  The guard `!prompt` is true only
for the empty string.  A thrown upstream error is escalated only when it
is an `Error` whose message contains the credential marker; every other
failure returns `undefined`. -/
def generateImage (upstream : UpstreamImage) (prompt : String) : Except GenError (Option String) :=
  if prompt = "" then Except.ok none
  else
    match upstream with
    | UpstreamImage.response gis =>
      match extractImageBytes gis with
      | some b => Except.ok (some ("data:image/jpeg;base64," ++ b))
      | none => Except.ok none
    | UpstreamImage.thrown isErr msg =>
      if isErr && jsIncludes msg "API key not valid" then
        Except.error GenError.invalidApiKeyImage
      else Except.ok none

/-! ## generateBlogPostContent -/

/-- Outcome of the upstream `ai.models.generateContent` call: the raw
response text, or a thrown value. -/
inductive UpstreamText where
  | success (text : String) : UpstreamText
  | failure (isError : Bool) (msg : String) : UpstreamText

/-- What the `try` block of lines 63-83 can throw: the upstream call's
own error, or one of this module's `GenError` values (from
`parseGeminiJsonResponse` or `generateImage`), which are all `Error`
instances. -/
inductive ContentThrown where
  | upstream (isError : Bool) (msg : String) : ContentThrown
  | internal (e : GenError) : ContentThrown

/-- The `catch` of lines 84-93. -/
def contentCatch : ContentThrown → GenError
  | ContentThrown.upstream isErr msg =>
    if isErr && jsIncludes msg "API key not valid" then GenError.invalidApiKey
    else if isErr then GenError.geminiApiError msg
    else GenError.unknownContent
  | ContentThrown.internal e =>
    if jsIncludes e.message "API key not valid" then GenError.invalidApiKey
    else GenError.geminiApiError e.message

/-- JavaScript string coercion of a parsed JSON value, used only for the
pathological case of a truthy non-string `imagePrompt` being handed to
`generateImage`; no element of this case is reachable from any claim,
and nested arrays are approximated. -/
def jsToStringJson : Json → String
  | Json.str s => s
  | Json.num lex => lex
  | Json.bool b => if b then "true" else "false"
  | Json.null => "null"
  | Json.arr _ => ""
  | Json.obj _ => "[object Object]"

def promptString : Option Json → String
  | some (Json.str s) => s
  | some v => jsToStringJson v
  | none => ""

/-- The spread-merge of the blog content with the image url at line 82. -/
structure GenResult where
  title : String
  content : String
  imagePrompt : Option Json
  imageUrl : Option String

def mergeResult (bc : BlogPostContent) (imageUrl : Option String) : GenResult :=
  ⟨bc.title, bc.content, bc.imagePrompt, imageUrl⟩

/-- The function `generateBlogPostContent` (service file lines 60-94).  The topic
only shapes the natural-language prompt sent upstream; the upstream
outcome is the `tu` parameter.  Both the parse failure and a thrown
image authentication error are raised inside this function's `try` and
re-wrapped by its `catch`. -/
def generateBlogPostContent (tu : UpstreamText) (iu : UpstreamImage) (topic : String) :
    Except GenError GenResult :=
  match tu with
  | UpstreamText.failure isErr msg =>
    Except.error (contentCatch (ContentThrown.upstream isErr msg))
  | UpstreamText.success text =>
    match parseGeminiJsonResponse text with
    | Except.error e => Except.error (contentCatch (ContentThrown.internal e))
    | Except.ok blogContent =>
      if jsTruthyOpt blogContent.imagePrompt then
        match generateImage iu (promptString blogContent.imagePrompt) with
        | Except.error e => Except.error (contentCatch (ContentThrown.internal e))
        | Except.ok imageUrl => Except.ok (mergeResult blogContent imageUrl)
      else Except.ok (mergeResult blogContent none)

/-! ## The coordinator (App.tsx) -/

structure BlogPost where
  id : String
  title : String
  content : String
  excerpt : String
  date : String
  imageUrl : Option String
deriving DecidableEq

/-- The React state of `App` (App.tsx lines 12-17). -/
structure AppState where
  posts : List BlogPost
  selectedPost : Option BlogPost
  isLoading : Bool
  error : Option String
  topic : String
  isGenerating : Bool
deriving DecidableEq

/-- The post record built at lines 56-63: identifier and date stamp come
from the environment (`Date.now()`, `toLocaleDateString`), the excerpt
is the first 150 characters of the content with an ellipsis appended. -/
def mkPost (idStr dateStr : String) (data : GenResult) : BlogPost :=
  { id := idStr
    title := data.title
    content := data.content
    excerpt := String.mk (data.content.data.take 150) ++ "..."
    date := dateStr
    imageUrl := data.imageUrl }

/-- The handler `handleGeneratePost` (App.tsx lines 48-75) as a state transition.
The guard of line 50 returns unchanged state when the trimmed topic is
empty or a generation is in flight.  Otherwise the transient
`setIsGenerating(true)`/`setError(null)` and the guaranteed
`finally { setIsGenerating(false) }` collapse into the final state:
on success the new post is prepended and the topic cleared, on failure
the error message is surfaced; the flag ends false either way. -/
def handleGeneratePost (idStr dateStr : String) (tu : UpstreamText) (iu : UpstreamImage)
    (s : AppState) : AppState :=
  if jsTrim s.topic = "" ∨ s.isGenerating = true then s
  else
    match generateBlogPostContent tu iu s.topic with
    | Except.ok data =>
      { s with
        posts := mkPost idStr dateStr data :: s.posts
        topic := ""
        error := none
        isGenerating := false }
    | Except.error e =>
      { s with
        error := some e.message
        isGenerating := false }


/-- Wrapping a payload in a fenced code block, with or without the
`json` tag, fence markers on their own lines. -/
def wrapFence (tag : Bool) (payload : String) : String :=
  (if tag then "```json\n" else "```\n") ++ payload ++ "\n```"

/-! ## Claims -/

/-- C1 (amended): for every payload, if the fence-normalised text parses
as JSON with string-typed `title` and `content` properties, the parser
returns exactly those field values (with `imagePrompt` passed through);
if the parse result lacks either field or has it non-string (or is
`null`), the parser fails — but with the generic parse-failure error,
not the structural error, since the structural throw of line 24 is
swallowed by the catch of line 26. -/
theorem parse_field_validation (payload : String) :
    (∀ v t c, jsonParseL (geminiJsonStrL payload.data) = some v →
      jsGetProp v "title" = some (Json.str t) →
      jsGetProp v "content" = some (Json.str c) →
      parseGeminiJsonResponse payload = Except.ok ⟨t, c, jsGetProp v "imagePrompt"⟩) ∧
    (∀ v, jsonParseL (geminiJsonStrL payload.data) = some v →
      (v = Json.null ∨ isStrOpt (jsGetProp v "title") = false ∨
        isStrOpt (jsGetProp v "content") = false) →
      parseGeminiJsonResponse payload = Except.error GenError.jsonParseFailure) := by
  constructor
  · intro v t c hv ht hc
    cases v with
    | obj fs =>
      simp [parseGeminiJsonResponse, parseCore, parseTryBlockL, hv, validateParsed,
        checkFields, ht, hc]
    | null => simp [jsGetProp] at ht
    | bool b => simp [jsGetProp] at ht
    | num lex => simp [jsGetProp] at ht
    | str s2 => simp [jsGetProp] at ht
    | arr xs => simp [jsGetProp] at ht
  · intro v hv hbad
    cases v with
    | null =>
      simp [parseGeminiJsonResponse, parseCore, parseTryBlockL, hv, validateParsed]
    | bool b =>
      simp [parseGeminiJsonResponse, parseCore, parseTryBlockL, hv, validateParsed,
        checkFields, jsGetProp]
    | num lex =>
      simp [parseGeminiJsonResponse, parseCore, parseTryBlockL, hv, validateParsed,
        checkFields, jsGetProp]
    | str s2 =>
      simp [parseGeminiJsonResponse, parseCore, parseTryBlockL, hv, validateParsed,
        checkFields, jsGetProp]
    | arr xs =>
      simp [parseGeminiJsonResponse, parseCore, parseTryBlockL, hv, validateParsed,
        checkFields, jsGetProp]
    | obj fs =>
      rcases hbad with h | h | h
      · simp at h
      · cases ht : jsGetProp (Json.obj fs) "title" with
        | none =>
          simp [parseGeminiJsonResponse, parseCore, parseTryBlockL, hv, validateParsed,
            checkFields, ht]
        | some w =>
          rw [ht] at h
          cases w with
          | str s2 => simp [isStrOpt] at h
          | null =>
            simp [parseGeminiJsonResponse, parseCore, parseTryBlockL, hv, validateParsed,
              checkFields, ht]
          | bool b =>
            simp [parseGeminiJsonResponse, parseCore, parseTryBlockL, hv, validateParsed,
              checkFields, ht]
          | num lex =>
            simp [parseGeminiJsonResponse, parseCore, parseTryBlockL, hv, validateParsed,
              checkFields, ht]
          | arr xs =>
            simp [parseGeminiJsonResponse, parseCore, parseTryBlockL, hv, validateParsed,
              checkFields, ht]
          | obj fs2 =>
            simp [parseGeminiJsonResponse, parseCore, parseTryBlockL, hv, validateParsed,
              checkFields, ht]
      · cases ht : jsGetProp (Json.obj fs) "title" with
        | none =>
          simp [parseGeminiJsonResponse, parseCore, parseTryBlockL, hv, validateParsed,
            checkFields, ht]
        | some w =>
          cases w with
          | str s2 =>
            cases hc : jsGetProp (Json.obj fs) "content" with
            | none =>
              simp [parseGeminiJsonResponse, parseCore, parseTryBlockL, hv, validateParsed,
                checkFields, ht, hc]
            | some w2 =>
              rw [hc] at h
              cases w2 with
              | str s3 => simp [isStrOpt] at h
              | null =>
                simp [parseGeminiJsonResponse, parseCore, parseTryBlockL, hv, validateParsed,
                  checkFields, ht, hc]
              | bool b =>
                simp [parseGeminiJsonResponse, parseCore, parseTryBlockL, hv, validateParsed,
                  checkFields, ht, hc]
              | num lex =>
                simp [parseGeminiJsonResponse, parseCore, parseTryBlockL, hv, validateParsed,
                  checkFields, ht, hc]
              | arr xs =>
                simp [parseGeminiJsonResponse, parseCore, parseTryBlockL, hv, validateParsed,
                  checkFields, ht, hc]
              | obj fs2 =>
                simp [parseGeminiJsonResponse, parseCore, parseTryBlockL, hv, validateParsed,
                  checkFields, ht, hc]
          | null =>
            simp [parseGeminiJsonResponse, parseCore, parseTryBlockL, hv, validateParsed,
              checkFields, ht]
          | bool b =>
            simp [parseGeminiJsonResponse, parseCore, parseTryBlockL, hv, validateParsed,
              checkFields, ht]
          | num lex =>
            simp [parseGeminiJsonResponse, parseCore, parseTryBlockL, hv, validateParsed,
              checkFields, ht]
          | arr xs =>
            simp [parseGeminiJsonResponse, parseCore, parseTryBlockL, hv, validateParsed,
              checkFields, ht]
          | obj fs2 =>
            simp [parseGeminiJsonResponse, parseCore, parseTryBlockL, hv, validateParsed,
              checkFields, ht]

/-- C1 witness: a concrete payload with string `title` and `content`
is accepted with exactly those values. -/
theorem parse_field_validation_witness :
    parseGeminiJsonResponse "\x7b\"title\":\"aa\",\"content\":\"bb\",\"imagePrompt\":\"pp\"\x7d" =
      Except.ok ⟨"aa", "bb", some (Json.str "pp")⟩ :=
  (parse_field_validation _).1 (Json.obj
    [("title", Json.str "aa"), ("content", Json.str "bb"), ("imagePrompt", Json.str "pp")])
    "aa" "bb" rfl rfl rfl

/-- C1 counterexample: a structurally invalid payload (numeric `title`)
makes the parser fail, but with the parse-failure error, whose message
is not the structural-error message of line 24. -/
theorem parse_missing_field_error_identity :
    parseGeminiJsonResponse "\x7b\"title\":1,\"content\":\"x\"\x7d" =
      Except.error GenError.jsonParseFailure ∧
    GenError.jsonParseFailure.message ≠ invalidStructureMessage :=
  ⟨rfl, by decide⟩

/-- C2 (bug): syntactically valid JSON with a non-string `title` raises
the structural error inside the try block, but the function surfaces
the very same parse-failure error that malformed JSON produces — the
two failure modes are not distinguishable from outside. -/
theorem parse_error_modes_collapsed :
    parseTryBlockL (geminiJsonStrL "\x7b\"title\":5,\"content\":\"ok\"\x7d".data) =
      Except.error ThrownError.invalidStructure ∧
    parseGeminiJsonResponse "\x7b\"title\":5,\"content\":\"ok\"\x7d" =
      Except.error GenError.jsonParseFailure ∧
    parseGeminiJsonResponse "\x7bnot json" = Except.error GenError.jsonParseFailure :=
  ⟨rfl, rfl, rfl⟩

/-- C3 (amended): every accepted payload carries string-typed `title`
and `content` taken verbatim from the parsed JSON, but no
non-emptiness check is performed: the all-empty payload is accepted. -/
theorem parse_allows_empty_fields :
    (∀ (payload : String) (r : BlogPostContent),
      parseGeminiJsonResponse payload = Except.ok r →
      ∃ v, jsonParseL (geminiJsonStrL payload.data) = some v ∧
        jsGetProp v "title" = some (Json.str r.title) ∧
        jsGetProp v "content" = some (Json.str r.content)) ∧
    parseGeminiJsonResponse "\x7b\"title\":\"\",\"content\":\"\"\x7d" =
      Except.ok ⟨"", "", none⟩ := by
  constructor
  · intro payload r h
    cases hj : jsonParseL (geminiJsonStrL payload.data) with
    | none =>
      simp [parseGeminiJsonResponse, parseCore, parseTryBlockL, hj] at h
    | some v =>
      cases v with
      | null =>
        simp [parseGeminiJsonResponse, parseCore, parseTryBlockL, hj, validateParsed] at h
      | bool b =>
        simp [parseGeminiJsonResponse, parseCore, parseTryBlockL, hj, validateParsed,
          checkFields, jsGetProp] at h
      | num lex =>
        simp [parseGeminiJsonResponse, parseCore, parseTryBlockL, hj, validateParsed,
          checkFields, jsGetProp] at h
      | str s2 =>
        simp [parseGeminiJsonResponse, parseCore, parseTryBlockL, hj, validateParsed,
          checkFields, jsGetProp] at h
      | arr xs =>
        simp [parseGeminiJsonResponse, parseCore, parseTryBlockL, hj, validateParsed,
          checkFields, jsGetProp] at h
      | obj fs =>
        cases ht : jsGetProp (Json.obj fs) "title" with
        | none =>
          simp [parseGeminiJsonResponse, parseCore, parseTryBlockL, hj, validateParsed,
            checkFields, ht] at h
        | some w =>
          cases w with
          | str s2 =>
            cases hc : jsGetProp (Json.obj fs) "content" with
            | none =>
              simp [parseGeminiJsonResponse, parseCore, parseTryBlockL, hj, validateParsed,
                checkFields, ht, hc] at h
            | some w2 =>
              cases w2 with
              | str s3 =>
                have h2 : (⟨s2, s3, jsGetProp (Json.obj fs) "imagePrompt"⟩ : BlogPostContent) = r := by
                  have h3 : parseGeminiJsonResponse payload =
                      Except.ok ⟨s2, s3, jsGetProp (Json.obj fs) "imagePrompt"⟩ := by
                    simp [parseGeminiJsonResponse, parseCore, parseTryBlockL, hj, validateParsed,
                      checkFields, ht, hc]
                  rw [h3] at h
                  injection h
                subst h2
                exact ⟨Json.obj fs, rfl, ht, hc⟩
              | null =>
                simp [parseGeminiJsonResponse, parseCore, parseTryBlockL, hj, validateParsed,
                  checkFields, ht, hc] at h
              | bool b =>
                simp [parseGeminiJsonResponse, parseCore, parseTryBlockL, hj, validateParsed,
                  checkFields, ht, hc] at h
              | num lex =>
                simp [parseGeminiJsonResponse, parseCore, parseTryBlockL, hj, validateParsed,
                  checkFields, ht, hc] at h
              | arr xs =>
                simp [parseGeminiJsonResponse, parseCore, parseTryBlockL, hj, validateParsed,
                  checkFields, ht, hc] at h
              | obj fs2 =>
                simp [parseGeminiJsonResponse, parseCore, parseTryBlockL, hj, validateParsed,
                  checkFields, ht, hc] at h
          | null =>
            simp [parseGeminiJsonResponse, parseCore, parseTryBlockL, hj, validateParsed,
              checkFields, ht] at h
          | bool b =>
            simp [parseGeminiJsonResponse, parseCore, parseTryBlockL, hj, validateParsed,
              checkFields, ht] at h
          | num lex =>
            simp [parseGeminiJsonResponse, parseCore, parseTryBlockL, hj, validateParsed,
              checkFields, ht] at h
          | arr xs =>
            simp [parseGeminiJsonResponse, parseCore, parseTryBlockL, hj, validateParsed,
              checkFields, ht] at h
          | obj fs2 =>
            simp [parseGeminiJsonResponse, parseCore, parseTryBlockL, hj, validateParsed,
              checkFields, ht] at h
  · rfl

/-- C3 witness: a concrete accepted payload, with its parse certificate. -/
theorem parse_allows_empty_fields_witness :
    ∃ v, jsonParseL (geminiJsonStrL "\x7b\"title\":\"wt\",\"content\":\"wc\"\x7d".data) = some v ∧
      jsGetProp v "title" = some (Json.str "wt") ∧
      jsGetProp v "content" = some (Json.str "wc") :=
  parse_allows_empty_fields.1 "\x7b\"title\":\"wt\",\"content\":\"wc\"\x7d" ⟨"wt", "wc", none⟩ rfl

/-- C3 counterexample: a payload whose `title` is the empty string is
accepted, not rejected, so a Post built from it has an empty title. -/
theorem parse_accepts_empty_title :
    parseGeminiJsonResponse "\x7b\"title\":\"\",\"content\":\"x\"\x7d" =
      Except.ok ⟨"", "x", none⟩ :=
  rfl

/-- C4 (amended): only the exactly-empty prompt short-circuits: the
result is "no image" for every upstream outcome, so the upstream call
is never consulted.  (Whitespace-only prompts are truthy in the guard
`!prompt` and do reach the upstream call — see the counterexample.) -/
theorem empty_prompt_skips_upstream (u : UpstreamImage) :
    generateImage u "" = Except.ok none := rfl

/-- C4 counterexample: for the whitespace-only prompt " " the generator
consults the upstream outcome and can return an image, so it neither
skips the upstream call nor returns "no image". -/
theorem whitespace_prompt_reaches_upstream :
    generateImage (UpstreamImage.response (some [⟨some ⟨some "B"⟩⟩])) " " =
      Except.ok (some "data:image/jpeg;base64,B") ∧
    generateImage (UpstreamImage.response (some [⟨some ⟨some "B"⟩⟩])) " " ≠
      Except.ok none := by
  refine ⟨rfl, fun h => ?_⟩
  rw [(rfl : generateImage (UpstreamImage.response (some [⟨some ⟨some "B"⟩⟩])) " " =
      Except.ok (some "data:image/jpeg;base64,B"))] at h
  injection h with h2
  exact Option.noConfusion h2

/-- C5: image generation is best-effort.  With a non-empty prompt:
a response without usable bytes yields "no image"; a thrown non-auth
error yields "no image"; a thrown auth error (an `Error` whose message
contains the credential marker) escalates; at the content level a
failed image leaves the merged result without an image reference, and
an escalated auth error propagates out of `generateBlogPostContent`
wrapped exactly like any other content-generation error; the
coordinator's post then carries no image reference. -/
theorem image_failure_best_effort (prompt : String) (hp : prompt ≠ "") :
    (∀ gis, extractImageBytes gis = none →
      generateImage (UpstreamImage.response gis) prompt = Except.ok none) ∧
    (∀ isErr msg, (isErr && jsIncludes msg "API key not valid") = false →
      generateImage (UpstreamImage.thrown isErr msg) prompt = Except.ok none) ∧
    (∀ isErr msg, (isErr && jsIncludes msg "API key not valid") = true →
      generateImage (UpstreamImage.thrown isErr msg) prompt =
        Except.error GenError.invalidApiKeyImage) ∧
    (∀ iu text bc topic, parseGeminiJsonResponse text = Except.ok bc →
      jsTruthyOpt bc.imagePrompt = true →
      generateImage iu (promptString bc.imagePrompt) = Except.ok none →
      generateBlogPostContent (UpstreamText.success text) iu topic =
        Except.ok (mergeResult bc none)) ∧
    (∀ iu text bc topic, parseGeminiJsonResponse text = Except.ok bc →
      jsTruthyOpt bc.imagePrompt = true →
      generateImage iu (promptString bc.imagePrompt) =
        Except.error GenError.invalidApiKeyImage →
      generateBlogPostContent (UpstreamText.success text) iu topic =
        Except.error (GenError.geminiApiError GenError.invalidApiKeyImage.message)) ∧
    (∀ idStr dateStr r, r.imageUrl = none → (mkPost idStr dateStr r).imageUrl = none) := by
  refine ⟨?_, ?_, ?_, ?_, ?_, ?_⟩
  · intro gis hg
    simp [generateImage, hp, hg]
  · intro isErr msg hm
    simp [generateImage, hp, hm]
  · intro isErr msg hm
    simp [generateImage, hp, hm]
  · intro iu text bc topic hparse htr himg
    simp [generateBlogPostContent, hparse, htr, himg, mergeResult]
  · intro iu text bc topic hparse htr himg
    simp [generateBlogPostContent, hparse, htr, himg]
    rfl
  · intro idStr dateStr r h
    exact h

/-- C5 witness: concrete instances of the three image-level clauses. -/
theorem image_failure_best_effort_witness :
    generateImage (UpstreamImage.response none) "P1" = Except.ok none ∧
    generateImage (UpstreamImage.thrown true "HTTP 500") "P1" = Except.ok none ∧
    generateImage (UpstreamImage.thrown true "API key not valid: check config") "P1" =
      Except.error GenError.invalidApiKeyImage :=
  ⟨(image_failure_best_effort "P1" (by decide)).1 none rfl,
   (image_failure_best_effort "P1" (by decide)).2.1 true "HTTP 500" rfl,
   (image_failure_best_effort "P1" (by decide)).2.2.1 true "API key not valid: check config" rfl⟩

/-- C7: submitting while a generation is in flight leaves the whole
state unchanged, and a run that is allowed to start always ends with
the in-flight flag cleared, on success and on failure alike. -/
theorem inflight_submission_noop (idStr dateStr : String) (tu : UpstreamText)
    (iu : UpstreamImage) (s : AppState) :
    (s.isGenerating = true → handleGeneratePost idStr dateStr tu iu s = s) ∧
    (s.isGenerating = false → (handleGeneratePost idStr dateStr tu iu s).isGenerating = false) := by
  constructor
  · intro h
    unfold handleGeneratePost
    rw [if_pos (Or.inr h)]
  · intro h
    unfold handleGeneratePost
    by_cases ht : jsTrim s.topic = ""
    · rw [if_pos (Or.inl ht)]; exact h
    · rw [if_neg (by simp [ht, h])]
      cases generateBlogPostContent tu iu s.topic <;> rfl

/-- C7 witness: with the flag set, a concrete second submission is a
no-op on a concrete state. -/
theorem inflight_submission_noop_witness :
    handleGeneratePost "i0" "d0" (UpstreamText.failure true "x") (UpstreamImage.response none)
      ⟨[], none, false, none, "X", true⟩ = ⟨[], none, false, none, "X", true⟩ :=
  (inflight_submission_noop "i0" "d0" (UpstreamText.failure true "x")
    (UpstreamImage.response none) ⟨[], none, false, none, "X", true⟩).1 rfl

/-- C8: when content generation fails, the coordinator's final state
surfaces the error's message, keeps the post list (and everything else
but the error slot) exactly as it was, and ends with the in-flight flag
cleared. -/
theorem error_completion_state (idStr dateStr : String) (tu : UpstreamText)
    (iu : UpstreamImage) (s : AppState) (e : GenError)
    (hgen : s.isGenerating = false) (htopic : jsTrim s.topic ≠ "")
    (herr : generateBlogPostContent tu iu s.topic = Except.error e) :
    handleGeneratePost idStr dateStr tu iu s =
      { s with error := some e.message, isGenerating := false } := by
  unfold handleGeneratePost
  rw [if_neg (by simp [htopic, hgen]), herr]

/-- C8 witness: a concrete failing generation surfaces the wrapped
message and leaves the empty post list untouched. -/
theorem error_completion_state_witness :
    handleGeneratePost "i1" "d1" (UpstreamText.failure true "boom") (UpstreamImage.response none)
      ⟨[], none, false, none, "AI", false⟩ =
      ⟨[], none, false, some "Gemini API error: boom", "AI", false⟩ :=
  error_completion_state "i1" "d1" (UpstreamText.failure true "boom")
    (UpstreamImage.response none) ⟨[], none, false, none, "AI", false⟩
    (GenError.geminiApiError "boom") rfl (by decide) rfl

/-- C9: the end-to-end example of the spec: topic "The Future of AI",
payload with title "T", content "C", image prompt "P", and a successful
image call returning bytes "XYZ" produce a post with exactly those
fields, the excerpt "C..." and the data URI wrapping the bytes. -/
theorem end_to_end_post_assembly :
    handleGeneratePost "post-1" "January 1, 2025"
      (UpstreamText.success "\x7b\"title\":\"T\",\"content\":\"C\",\"imagePrompt\":\"P\"\x7d")
      (UpstreamImage.response (some [⟨some ⟨some "XYZ"⟩⟩]))
      ⟨[], none, false, none, "The Future of AI", false⟩ =
      ⟨[⟨"post-1", "T", "C", "C...", "January 1, 2025", some "data:image/jpeg;base64,XYZ"⟩],
        none, false, none, "", false⟩ := rfl

/-- C10: the topic input is cleared exactly on success: a failed
attempt leaves the user's topic string unchanged, a successful one
resets it to the empty string. -/
theorem topic_cleared_only_on_success (idStr dateStr : String) (tu : UpstreamText)
    (iu : UpstreamImage) (s : AppState)
    (hgen : s.isGenerating = false) (htopic : jsTrim s.topic ≠ "") :
    (∀ d, generateBlogPostContent tu iu s.topic = Except.ok d →
      (handleGeneratePost idStr dateStr tu iu s).topic = "") ∧
    (∀ e, generateBlogPostContent tu iu s.topic = Except.error e →
      (handleGeneratePost idStr dateStr tu iu s).topic = s.topic) := by
  constructor <;> intro x hx <;> unfold handleGeneratePost <;>
    rw [if_neg (by simp [htopic, hgen]), hx]

/-- C10 witness: concrete success clears the topic, concrete failure
preserves it. -/
theorem topic_cleared_only_on_success_witness :
    (handleGeneratePost "i2" "d2"
      (UpstreamText.success "\x7b\"title\":\"t1\",\"content\":\"c1\"\x7d")
      (UpstreamImage.response none) ⟨[], none, false, none, "Cats", false⟩).topic = "" ∧
    (handleGeneratePost "i3" "d3" (UpstreamText.failure true "down")
      (UpstreamImage.response none) ⟨[], none, false, none, "Dogs", false⟩).topic = "Dogs" :=
  ⟨(topic_cleared_only_on_success "i2" "d2"
      (UpstreamText.success "\x7b\"title\":\"t1\",\"content\":\"c1\"\x7d")
      (UpstreamImage.response none) ⟨[], none, false, none, "Cats", false⟩ rfl (by decide)).1
      ⟨"t1", "c1", none, none⟩ rfl,
   (topic_cleared_only_on_success "i3" "d3" (UpstreamText.failure true "down")
      (UpstreamImage.response none) ⟨[], none, false, none, "Dogs", false⟩ rfl (by decide)).2
      (GenError.geminiApiError "down") rfl⟩

/-! ## Fence-wrap transparency (C6): dropWhile toolkit -/

theorem dropWhile_cons_false (p : Char → Bool) (c : Char) (l : List Char) (h : p c = false) :
    (c :: l).dropWhile p = c :: l := by
  simp [List.dropWhile_cons, h]

theorem dropWhile_head_false (p : Char → Bool) :
    ∀ (l : List Char) {c : Char} {cs : List Char}, l.dropWhile p = c :: cs → p c = false := by
  intro l
  induction l with
  | nil => intro c cs h; simp [List.dropWhile] at h
  | cons a t ih =>
    intro c cs h
    by_cases hpa : p a = true
    · rw [List.dropWhile_cons, if_pos hpa] at h
      exact ih h
    · rw [List.dropWhile_cons, if_neg hpa] at h
      rw [← (List.cons.injEq a t c cs).mp h |>.1]
      exact Bool.of_not_eq_true hpa

theorem dropWhile_append_pos (p : Char → Bool) (l t : List Char) (h : l.dropWhile p ≠ []) :
    (l ++ t).dropWhile p = l.dropWhile p ++ t := by
  induction l with
  | nil => simp [List.dropWhile] at h
  | cons a l2 ih =>
    by_cases hpa : p a = true
    · rw [List.dropWhile_cons, if_pos hpa] at h
      rw [List.cons_append, List.dropWhile_cons, if_pos hpa, List.dropWhile_cons, if_pos hpa]
      exact ih h
    · rw [List.cons_append, List.dropWhile_cons, if_neg hpa, List.dropWhile_cons, if_neg hpa]
      rfl

theorem dropWhile_append_nil (p : Char → Bool) (l t : List Char) (h : l.dropWhile p = []) :
    (l ++ t).dropWhile p = t.dropWhile p := by
  induction l with
  | nil => simp
  | cons a l2 ih =>
    by_cases hpa : p a = true
    · rw [List.dropWhile_cons, if_pos hpa] at h
      rw [List.cons_append, List.dropWhile_cons, if_pos hpa]
      exact ih h
    · rw [List.dropWhile_cons, if_neg hpa] at h
      exact absurd h (by simp)

theorem dropWhile_idem (p : Char → Bool) (l : List Char) :
    (l.dropWhile p).dropWhile p = l.dropWhile p := by
  induction l with
  | nil => rfl
  | cons a l2 ih =>
    by_cases hpa : p a = true
    · rw [List.dropWhile_cons, if_pos hpa]; exact ih
    · rw [List.dropWhile_cons, if_neg hpa, List.dropWhile_cons, if_neg hpa]

theorem dropWhile_snoc_false (p : Char → Bool) (l : List Char) (x : Char) (h : p x = false) :
    (l ++ [x]).dropWhile p = l.dropWhile p ++ [x] := by
  by_cases hl : l.dropWhile p = []
  · rw [dropWhile_append_nil p l [x] hl, hl, dropWhile_cons_false p x [] h]
    rfl
  · exact dropWhile_append_pos p l [x] hl

theorem trimL_eq_self (l : List Char) (h1 : l.dropWhile isJsWhite = l)
    (h2 : l.reverse.dropWhile isJsWhite = l.reverse) : trimL l = l := by
  unfold trimL
  rw [h1, h2, List.reverse_reverse]

theorem parseValue_backtick (f : Nat) (l : List Char) :
    parseValue (f + 1) ('\x60' :: l) = none := by
  have hws : isJsonWs '\x60' = false := rfl
  simp [parseValue, skipWs, List.dropWhile_cons, hws, Char.isDigit]

theorem jsonParseL_backtick (l : List Char) : jsonParseL ('\x60' :: l) = none := by
  unfold jsonParseL
  rw [show ('\x60' :: l).length + 2 = (('\x60' :: l).length + 1) + 1 from rfl]
  rw [parseValue_backtick]

theorem parseCore_backtick (l : List Char) :
    parseCore ('\x60' :: l) = Except.error GenError.jsonParseFailure := by
  simp [parseCore, parseTryBlockL, jsonParseL_backtick]

theorem trimL_of_pos (Pd : List Char) (c : Char) (cs : List Char)
    (hP : Pd.dropWhile isJsWhite = c :: cs) :
    trimL Pd = c :: (cs.reverse.dropWhile isJsWhite).reverse := by
  have hc := dropWhile_head_false isJsWhite Pd hP
  unfold trimL
  rw [hP, List.reverse_cons, dropWhile_snoc_false isJsWhite cs.reverse c hc]
  simp

theorem trimL_cons_fixed (c : Char) (y : List Char) (hc : isJsWhite c = false) :
    trimL (c :: (y.dropWhile isJsWhite).reverse) = c :: (y.dropWhile isJsWhite).reverse := by
  unfold trimL
  rw [dropWhile_cons_false isJsWhite c _ hc, List.reverse_cons, List.reverse_reverse,
    dropWhile_snoc_false isJsWhite _ c hc, dropWhile_idem]
  simp

theorem trimL_wrap_self (mid : List Char) :
    trimL ('\x60' :: (mid ++ ['\x60'])) = '\x60' :: (mid ++ ['\x60']) := by
  apply trimL_eq_self
  · exact dropWhile_cons_false isJsWhite '\x60' _ rfl
  · have h : ('\x60' :: (mid ++ ['\x60'])).reverse = '\x60' :: (mid.reverse ++ ['\x60']) := by
      simp
    rw [h]
    exact dropWhile_cons_false isJsWhite '\x60' _ rfl

theorem fenceRest_eq_none {l : List Char} (h : startsFence l = false) : fenceRest l = none := by
  cases hfr : fenceRest l with
  | none => rfl
  | some r =>
    unfold startsFence at h
    rw [hfr] at h
    simp at h

/-- The fence regex on a wrapped payload with some non-whitespace
content: the capture group is exactly the trimmed payload. -/
theorem fenceGroupL_wrap_pos (Pd : List Char) (c : Char) (cs : List Char)
    (hP : Pd.dropWhile isJsWhite = c :: cs) (r1 : List Char)
    (hst : stripJsonTag r1 = '\n' :: (Pd ++ ['\n', '\x60', '\x60', '\x60'])) :
    fenceGroupL ('\x60' :: '\x60' :: '\x60' :: r1) = some (trimL Pd) := by
  have hc := dropWhile_head_false isJsWhite Pd hP
  have hnl : isJsWhite '\n' = true := rfl
  have hPne : Pd.dropWhile isJsWhite ≠ [] := by rw [hP]; exact List.cons_ne_nil c cs
  have h1 : (stripJsonTag r1).dropWhile isJsWhite
      = (c :: cs) ++ ['\n', '\x60', '\x60', '\x60'] := by
    rw [hst, List.dropWhile_cons, if_pos hnl, dropWhile_append_pos isJsWhite Pd _ hPne, hP]
  have h2 : ((c :: cs) ++ ['\n', '\x60', '\x60', '\x60']).reverse
      = '\x60' :: '\x60' :: '\x60' :: '\n' :: (cs.reverse ++ [c]) := by
    simp
  have h3 : ('\n' :: (cs.reverse ++ [c])).dropWhile isJsWhite
      = cs.reverse.dropWhile isJsWhite ++ [c] := by
    rw [List.dropWhile_cons, if_pos hnl, dropWhile_snoc_false isJsWhite cs.reverse c hc]
  have h4 := trimL_of_pos Pd c cs hP
  simp only [fenceGroupL, fenceRest, h1, h2, h3, h4, List.reverse_append,
    List.reverse_cons, List.reverse_nil, List.nil_append, List.cons_append]

/-- The fence regex on a wrapped all-whitespace payload: the group is
empty (so the source keeps the whole string). -/
theorem fenceGroupL_wrap_nil (Pd : List Char) (hP : Pd.dropWhile isJsWhite = [])
    (r1 : List Char)
    (hst : stripJsonTag r1 = '\n' :: (Pd ++ ['\n', '\x60', '\x60', '\x60'])) :
    fenceGroupL ('\x60' :: '\x60' :: '\x60' :: r1) = some [] := by
  have h1 : (stripJsonTag r1).dropWhile isJsWhite = ['\x60', '\x60', '\x60'] := by
    have hnl : isJsWhite '\n' = true := rfl
    rw [hst, List.dropWhile_cons, if_pos hnl, dropWhile_append_nil isJsWhite Pd _ hP]
    rfl
  simp only [fenceGroupL, fenceRest, h1]
  rfl

/-- Shared core: parsing a fence-wrapped payload agrees with parsing
the bare payload, provided the trimmed payload is not itself fenced. -/
theorem wrap_equiv_list (Pd r1 : List Char)
    (hsf : startsFence (trimL Pd) = false)
    (hst : stripJsonTag r1 = '\n' :: (Pd ++ ['\n', '\x60', '\x60', '\x60']))
    (htrim : trimL ('\x60' :: '\x60' :: '\x60' :: r1) = '\x60' :: '\x60' :: '\x60' :: r1) :
    parseCore (geminiJsonStrL ('\x60' :: '\x60' :: '\x60' :: r1)) =
      parseCore (geminiJsonStrL Pd) := by
  cases hP : Pd.dropWhile isJsWhite with
  | nil =>
    have htP : trimL Pd = [] := by unfold trimL; rw [hP]; rfl
    have hun : geminiJsonStrL Pd = [] := by
      unfold geminiJsonStrL
      rw [htP]
      rfl
    have hw : geminiJsonStrL ('\x60' :: '\x60' :: '\x60' :: r1)
        = '\x60' :: '\x60' :: '\x60' :: r1 := by
      unfold geminiJsonStrL
      rw [htrim, fenceGroupL_wrap_nil Pd hP r1 hst]
      rfl
    rw [hun, hw, parseCore_backtick]
    rfl
  | cons c cs =>
    have hc := dropWhile_head_false isJsWhite Pd hP
    have h4 := trimL_of_pos Pd c cs hP
    have hfg : fenceGroupL ('\x60' :: '\x60' :: '\x60' :: r1) = some (trimL Pd) :=
      fenceGroupL_wrap_pos Pd c cs hP r1 hst
    have hfgP : fenceGroupL (trimL Pd) = none := by
      unfold fenceGroupL
      rw [fenceRest_eq_none hsf]
    have hmidne : (trimL Pd).isEmpty = false := by rw [h4]; rfl
    have htrimtrim : trimL (trimL Pd) = trimL Pd := by
      rw [h4]
      exact trimL_cons_fixed c cs.reverse hc
    have hw : geminiJsonStrL ('\x60' :: '\x60' :: '\x60' :: r1) = trimL Pd := by
      unfold geminiJsonStrL
      rw [htrim, hfg]
      simp [hmidne, htrimtrim]
    have hun : geminiJsonStrL Pd = trimL Pd := by
      unfold geminiJsonStrL
      rw [hfgP]
    rw [hw, hun]

theorem wrap_equiv_tag_json (Pd : List Char) (hsf : startsFence (trimL Pd) = false) :
    parseCore (geminiJsonStrL
      ('\x60' :: '\x60' :: '\x60' :: 'j' :: 's' :: 'o' :: 'n' :: '\n' ::
        (Pd ++ ['\n', '\x60', '\x60', '\x60']))) =
      parseCore (geminiJsonStrL Pd) := by
  apply wrap_equiv_list Pd _ hsf
  · rfl
  · have h : ('\x60' :: '\x60' :: '\x60' :: 'j' :: 's' :: 'o' :: 'n' :: '\n' ::
        (Pd ++ ['\n', '\x60', '\x60', '\x60']) : List Char)
        = '\x60' :: (('\x60' :: '\x60' :: 'j' :: 's' :: 'o' :: 'n' :: '\n' ::
            (Pd ++ ['\n', '\x60', '\x60'])) ++ ['\x60']) := by
      simp
    rw [h]
    exact trimL_wrap_self _

theorem wrap_equiv_tag_plain (Pd : List Char) (hsf : startsFence (trimL Pd) = false) :
    parseCore (geminiJsonStrL
      ('\x60' :: '\x60' :: '\x60' :: '\n' :: (Pd ++ ['\n', '\x60', '\x60', '\x60']))) =
      parseCore (geminiJsonStrL Pd) := by
  apply wrap_equiv_list Pd _ hsf
  · rfl
  · have h : ('\x60' :: '\x60' :: '\x60' :: '\n' ::
        (Pd ++ ['\n', '\x60', '\x60', '\x60']) : List Char)
        = '\x60' :: (('\x60' :: '\x60' :: '\n' :: (Pd ++ ['\n', '\x60', '\x60'])) ++ ['\x60']) := by
      simp
    rw [h]
    exact trimL_wrap_self _

/-- C6 (amended): for every payload whose trimmed form does not itself
start with the fence marker, wrapping it in a fenced block (with or
without the `json` tag, fence markers on their own lines) parses to the
identical result — acceptance, value and rejection all agree with the
unwrapped payload.  (A payload that is already fenced is the exception:
see the counterexample.) -/
theorem fenced_wrap_transparent (tag : Bool) (payload : String)
    (h : startsFence (trimL payload.data) = false) :
    parseGeminiJsonResponse (wrapFence tag payload) = parseGeminiJsonResponse payload := by
  unfold parseGeminiJsonResponse
  cases tag with
  | true =>
    have hd : (wrapFence true payload).data
        = '\x60' :: '\x60' :: '\x60' :: 'j' :: 's' :: 'o' :: 'n' :: '\n' ::
          (payload.data ++ ['\n', '\x60', '\x60', '\x60']) := by
      show ("```json\n" ++ payload ++ "\n```").data = _
      rw [String.data_append, String.data_append]
      have h1 : "```json\n".data = ['\x60', '\x60', '\x60', 'j', 's', 'o', 'n', '\n'] := rfl
      have h2 : "\n```".data = ['\n', '\x60', '\x60', '\x60'] := rfl
      rw [h1, h2]
      simp
    rw [hd]
    exact wrap_equiv_tag_json payload.data h
  | false =>
    have hd : (wrapFence false payload).data
        = '\x60' :: '\x60' :: '\x60' :: '\n' ::
          (payload.data ++ ['\n', '\x60', '\x60', '\x60']) := by
      show ("```\n" ++ payload ++ "\n```").data = _
      rw [String.data_append, String.data_append]
      have h1 : "```\n".data = ['\x60', '\x60', '\x60', '\n'] := rfl
      have h2 : "\n```".data = ['\n', '\x60', '\x60', '\x60'] := rfl
      rw [h1, h2]
      simp
    rw [hd]
    exact wrap_equiv_tag_plain payload.data h

/-- C6 witness: a concrete unfenced payload parses identically wrapped
and unwrapped, and both succeed. -/
theorem fenced_wrap_transparent_witness :
    parseGeminiJsonResponse (wrapFence true "\x7b\"title\":\"a2\",\"content\":\"b2\"\x7d") =
      parseGeminiJsonResponse "\x7b\"title\":\"a2\",\"content\":\"b2\"\x7d" ∧
    parseGeminiJsonResponse "\x7b\"title\":\"a2\",\"content\":\"b2\"\x7d" =
      Except.ok ⟨"a2", "b2", none⟩ :=
  ⟨fenced_wrap_transparent true "\x7b\"title\":\"a2\",\"content\":\"b2\"\x7d" (by decide), rfl⟩

/-- C6 counterexample: a payload that is itself a fenced block is
accepted unwrapped, but wrapping it in a further fence flips the result
to rejection: the outer fence strip exposes the inner fenced text,
which is not valid JSON. -/
theorem fenced_wrap_double_fence_fails :
    parseGeminiJsonResponse "```json\n\x7b\"title\":\"a\",\"content\":\"b\"\x7d\n```" =
      Except.ok ⟨"a", "b", none⟩ ∧
    parseGeminiJsonResponse
        (wrapFence false "```json\n\x7b\"title\":\"a\",\"content\":\"b\"\x7d\n```") =
      Except.error GenError.jsonParseFailure :=
  ⟨rfl, rfl⟩
